import Mathlib

/-!
Verification of the piponic_cloud Firebase functions (functions/index.js).

We shallowly embed the threshold-evaluation and alert engine:
- sensor readings, per-device configuration and error-state documents;
- `detectSystemErrors`, which walks the configuration keys (a JS `for..in`
  over the config document plus a `switch`) and the fixed-threshold checks,
  mutating the error document in place and firing FCM notifications on
  false→true flag transitions;
- the orchestrator `iotStoreDeviceUpdates` (document-default creation);
- `generateRequest` / `iotDeviceConfigUpdate` (config push to the device).

JS numbers are modelled as rationals (`Rat`); all comparisons in the source
are order comparisons on numeric sensor values and thresholds.  Optional
("key in object") fields are modelled as `Option` fields.  The in-place
mutation of the error document is modelled by explicit state passing; each
`switch` case reads only the flag it writes, so the JS `for..in` iteration
order over the configuration keys does not affect the result, and we fix the
insertion order of the default configuration document (max_ph, min_ph,
max_temperature, min_temperature).
-/

set_option linter.unnecessarySeqFocus false

namespace Piponic

/-- A device reading (the PubSub message JSON body): a sparse record of
numeric sensor values.  A missing field models a key absent from the JS
object (`"temperature" in deviceData` is false). -/
structure Reading where
  temperature : Option Rat := none
  pH : Option Rat := none
  battery_voltage : Option Rat := none
  leak : Option Rat := none
  internal_leak : Option Rat := none
  water_level : Option Rat := none
deriving DecidableEq, Repr

/-- A per-device configuration document.  Fields are optional: the evaluator
only runs a threshold check when the corresponding key is present in the
document (the `for..in` loop only visits present keys). -/
structure Config where
  max_ph : Option Rat := none
  min_ph : Option Rat := none
  max_temperature : Option Rat := none
  min_temperature : Option Rat := none
  peristaltic_pump_on : Option Bool := none
  target_ph : Option Rat := none
  update_interval_minutes : Option Rat := none
deriving DecidableEq, Repr

/-- A per-device error-state document: one boolean flag per monitored
condition. -/
structure ErrorState where
  PH_HIGH : Bool
  PH_LOW : Bool
  TEMP_HIGH : Bool
  TEMP_LOW : Bool
  WATER_LEVEL_LOW : Bool
  BATTERY_LOW : Bool
  LEAK_DETECTED : Bool
  INTERNAL_LEAK_DETECTED : Bool
deriving DecidableEq, Repr

/-- Constant `DEFAULT_CONFIG_DOC` from index.js. -/
def DEFAULT_CONFIG_DOC : Config :=
  { max_ph := some 10
    min_ph := some 5
    max_temperature := some 25
    min_temperature := some 15
    peristaltic_pump_on := some false
    target_ph := some 7
    update_interval_minutes := some 30 }

/-- Constant `DEFAULT_ERROR_DOC` from index.js: all flags false. -/
def DEFAULT_ERROR_DOC : ErrorState :=
  { PH_HIGH := false
    PH_LOW := false
    TEMP_HIGH := false
    TEMP_LOW := false
    WATER_LEVEL_LOW := false
    BATTERY_LOW := false
    LEAK_DETECTED := false
    INTERNAL_LEAK_DETECTED := false }

def MIN_BATTERY_VOLTAGE : Rat := 4
def MAX_LEAK_VOLTAGE : Rat := mkRat 6 10

-- Notification message constants from index.js.
def GENERIC_WARN_MSG : String := "Please check your system to avoid damage..."
def TEMP_HIGH_MSG : String := "TEMPERATURE TOO HIGH..."
def TEMP_LOW_MSG : String := "TEMPERATURE TOO LOW..."
def PH_HIGH_MSG : String := "PH TOO HIGH..."
def PH_LOW_MSG : String := "PH TOO LOW..."
def BATTERY_LOW_MSG : String := "BATTERY TOO LOW.."
def INTERNAL_LEAK_MSG : String := "INTERNAL LEAK DETECTED..."
def LEAK_MSG : String := "LEAK DETECTED..."

/-- An outbound FCM notification: topic, the visible title/body, and the
delivery options fixed inside `sendFCMNotification`. -/
structure Notification where
  topic : String
  title : String
  body : String
  priority : String
  timeToLive : Nat
  sound : String
deriving DecidableEq, Repr

/-- Function `sendFCMNotification(topic, title, body)`: builds the message sent via
`admin.messaging().sendToTopic`, with fixed options
`priority: "high", timeToLive: 60*60*24` and `sound: "default"`. -/
def sendFCMNotification (topic title body : String) : Notification :=
  { topic := topic
    title := title
    body := body
    priority := "high"
    timeToLive := 60 * 60 * 24
    sound := "default" }

/-! The `switch` cases of `detectSystemErrors`, one definition per case.
Each returns the updated error document and the notifications fired.  The
outer `Option` match on the config field models the `for..in` loop visiting
the key only when present; the inner match models `"temperature" in
deviceData` etc.; the notification fires before the flag is written, so the
`if` reads the flag still holding its prior value. -/

/-- Source `case "min_temperature"` of `detectSystemErrors`. -/
def checkMinTemperature (deviceId : String) (deviceData : Reading)
    (configData : Config) (errorData : ErrorState) :
    ErrorState × List Notification :=
  match configData.min_temperature with
  | none => (errorData, [])
  | some minT =>
    match deviceData.temperature with
    | none => (errorData, [])
    | some t =>
      if t < minT then
        ({ errorData with TEMP_LOW := true },
         if !errorData.TEMP_LOW then
           [sendFCMNotification deviceId (deviceId ++ ": " ++ TEMP_LOW_MSG)
             GENERIC_WARN_MSG]
         else [])
      else ({ errorData with TEMP_LOW := false }, [])

/-- Source `case "max_temperature"` of `detectSystemErrors`. -/
def checkMaxTemperature (deviceId : String) (deviceData : Reading)
    (configData : Config) (errorData : ErrorState) :
    ErrorState × List Notification :=
  match configData.max_temperature with
  | none => (errorData, [])
  | some maxT =>
    match deviceData.temperature with
    | none => (errorData, [])
    | some t =>
      if t > maxT then
        ({ errorData with TEMP_HIGH := true },
         if !errorData.TEMP_HIGH then
           [sendFCMNotification deviceId (deviceId ++ ": " ++ TEMP_HIGH_MSG)
             GENERIC_WARN_MSG]
         else [])
      else ({ errorData with TEMP_HIGH := false }, [])

/-- Source `case "max_ph"` of `detectSystemErrors`. -/
def checkMaxPh (deviceId : String) (deviceData : Reading)
    (configData : Config) (errorData : ErrorState) :
    ErrorState × List Notification :=
  match configData.max_ph with
  | none => (errorData, [])
  | some maxPh =>
    match deviceData.pH with
    | none => (errorData, [])
    | some v =>
      if v > maxPh then
        ({ errorData with PH_HIGH := true },
         if !errorData.PH_HIGH then
           [sendFCMNotification deviceId (deviceId ++ ": " ++ PH_HIGH_MSG)
             GENERIC_WARN_MSG]
         else [])
      else ({ errorData with PH_HIGH := false }, [])

/-- Source `case "min_ph"` of `detectSystemErrors`. -/
def checkMinPh (deviceId : String) (deviceData : Reading)
    (configData : Config) (errorData : ErrorState) :
    ErrorState × List Notification :=
  match configData.min_ph with
  | none => (errorData, [])
  | some minPh =>
    match deviceData.pH with
    | none => (errorData, [])
    | some v =>
      if v < minPh then
        ({ errorData with PH_LOW := true },
         if !errorData.PH_LOW then
           [sendFCMNotification deviceId (deviceId ++ ": " ++ PH_LOW_MSG)
             GENERIC_WARN_MSG]
         else [])
      else ({ errorData with PH_LOW := false }, [])

/-- The battery-voltage check of `detectSystemErrors` (fixed constant, not
from the user configuration). -/
def checkBatteryVoltage (deviceId : String) (deviceData : Reading)
    (errorData : ErrorState) : ErrorState × List Notification :=
  match deviceData.battery_voltage with
  | none => (errorData, [])
  | some v =>
    if v < MIN_BATTERY_VOLTAGE then
      ({ errorData with BATTERY_LOW := true },
       if !errorData.BATTERY_LOW then
         [sendFCMNotification deviceId (deviceId ++ ": " ++ BATTERY_LOW_MSG)
           GENERIC_WARN_MSG]
       else [])
    else ({ errorData with BATTERY_LOW := false }, [])

/-- The internal-leak check of `detectSystemErrors`.  Note the source builds
this title with `deviceId + " " + INTERNAL_LEAK_MSG` — a space, not `": "`. -/
def checkInternalLeak (deviceId : String) (deviceData : Reading)
    (errorData : ErrorState) : ErrorState × List Notification :=
  match deviceData.internal_leak with
  | none => (errorData, [])
  | some v =>
    if v > MAX_LEAK_VOLTAGE then
      ({ errorData with INTERNAL_LEAK_DETECTED := true },
       if !errorData.INTERNAL_LEAK_DETECTED then
         [sendFCMNotification deviceId (deviceId ++ " " ++ INTERNAL_LEAK_MSG)
           GENERIC_WARN_MSG]
       else [])
    else ({ errorData with INTERNAL_LEAK_DETECTED := false }, [])

/-- The leak check of `detectSystemErrors`. -/
def checkLeak (deviceId : String) (deviceData : Reading)
    (errorData : ErrorState) : ErrorState × List Notification :=
  match deviceData.leak with
  | none => (errorData, [])
  | some v =>
    if v > MAX_LEAK_VOLTAGE then
      ({ errorData with LEAK_DETECTED := true },
       if !errorData.LEAK_DETECTED then
         [sendFCMNotification deviceId (deviceId ++ ": " ++ LEAK_MSG)
           GENERIC_WARN_MSG]
       else [])
    else ({ errorData with LEAK_DETECTED := false }, [])

/-- Function `detectSystemErrors(deviceId, deviceData, configData, errorData)`:
runs the configuration-driven checks (in the key order of the default
configuration document; the order is immaterial because each case touches a
distinct flag) followed by the fixed-constant checks, threading the mutated
error document and collecting the notifications fired.  Returns the final
error document (the value the source persists to the `Error` collection)
and the notifications. -/
def detectSystemErrors (deviceId : String) (deviceData : Reading)
    (configData : Config) (errorData : ErrorState) :
    ErrorState × List Notification :=
  let r1 := checkMaxPh deviceId deviceData configData errorData
  let r2 := checkMinPh deviceId deviceData configData r1.1
  let r3 := checkMaxTemperature deviceId deviceData configData r2.1
  let r4 := checkMinTemperature deviceId deviceData configData r3.1
  let r5 := checkBatteryVoltage deviceId deviceData r4.1
  let r6 := checkInternalLeak deviceId deviceData r5.1
  let r7 := checkLeak deviceId deviceData r6.1
  (r7.1, r1.2 ++ r2.2 ++ r3.2 ++ r4.2 ++ r5.2 ++ r6.2 ++ r7.2)

/-! The ingestion orchestrator `iotStoreDeviceUpdates`.  We model the
documents it touches for one device: the real-time-database entry, the
`Status` document, the `History` subcollection, the `Config` document and
the `Error` document.  (The server timestamp the source attaches to the
reading is real time and is not modelled.)  The source fetches the config
document (creating the default when missing), then the error document; when
the error document is missing it persists `DEFAULT_ERROR_DOC` and RETURNS
without evaluating the reading; otherwise it calls `detectSystemErrors`,
which sends the notifications and persists the resulting error document. -/

/-- The per-device slice of the external stores touched by
`iotStoreDeviceUpdates`. -/
structure Store where
  rtdb : Option Reading := none
  status : Option Reading := none
  history : List Reading := []
  config : Option Config := none
  error : Option ErrorState := none
deriving DecidableEq, Repr

/-- Function `iotStoreDeviceUpdates` for one PubSub message: returns the store after
all writes, together with the notifications sent. -/
def iotStoreDeviceUpdates (deviceId : String) (deviceData : Reading)
    (s : Store) : Store × List Notification :=
  let s0 : Store :=
    { s with
      rtdb := some deviceData
      status := some deviceData
      history := s.history ++ [deviceData] }
  let piConfigData := match s0.config with
    | none => DEFAULT_CONFIG_DOC
    | some c => c
  let s1 : Store := match s0.config with
    | none => { s0 with config := some DEFAULT_CONFIG_DOC }
    | some _ => s0
  match s1.error with
  | none =>
    -- source: persist the default error document and return early
    ({ s1 with error := some DEFAULT_ERROR_DOC }, [])
  | some piErrorData =>
    let r := detectSystemErrors deviceId deviceData piConfigData piErrorData
    ({ s1 with error := some r.1 }, r.2)

/-! The configuration-push path: `generateRequest` (used by
`iotDeviceConfigUpdate`) serialises the configuration document with
`JSON.stringify`, base64-encodes its UTF-8 bytes (`Buffer.from(...)
.toString("base64")`), and addresses the request to
`client.devicePath(GCLOUD_PROJECT, IOT_REGION, REGISTRY_ID, deviceId)`. -/

def GCLOUD_PROJECT : String := "piponics"
def REGISTRY_ID : String := "RaspberryPis"
def IOT_REGION : String := "us-central1"

/-- A JSON scalar as it occurs in a configuration document (numbers are
modelled at integer precision, which covers the default document). -/
inductive JsonValue where
  | num (n : Int)
  | jbool (b : Bool)
  | str (s : String)
deriving DecidableEq, Repr

/-- Serialization `JSON.stringify` of a scalar. -/
def JsonValue.stringify : JsonValue → String
  | .num n => toString n
  | .jbool b => if b then "true" else "false"
  | .str s => "\"" ++ s ++ "\""

/-- Serialization `JSON.stringify` of a JS object given as its ordered key/value fields
(keys in a config document need no escaping). -/
def jsonStringify (doc : List (String × JsonValue)) : String :=
  "\x7b" ++
    String.intercalate ","
      (doc.map (fun kv => "\"" ++ kv.1 ++ "\":" ++ kv.2.stringify)) ++
  "\x7d"

/-- UTF-8 encoding of one character (what `Buffer.from(s)` does per code
point). -/
def utf8EncodeChar (ch : Char) : List Nat :=
  let n := ch.toNat
  if n < 0x80 then [n]
  else if n < 0x800 then
    [0xC0 + n / 64, 0x80 + n % 64]
  else if n < 0x10000 then
    [0xE0 + n / 4096, 0x80 + n / 64 % 64, 0x80 + n % 64]
  else
    [0xF0 + n / 262144, 0x80 + n / 4096 % 64, 0x80 + n / 64 % 64,
     0x80 + n % 64]

/-- The UTF-8 bytes of a string. -/
def utf8Bytes (s : String) : List Nat :=
  s.data.flatMap utf8EncodeChar

def BASE64_ALPHABET : String :=
  "ABCDEFGHIJKLMNOPQRSTUVWXYZabcdefghijklmnopqrstuvwxyz0123456789+/"

def base64Digit (n : Nat) : Char := BASE64_ALPHABET.data.getD n 'A'

/-- Standard base64 with padding over a byte list (Node
`buffer.toString("base64")`). -/
def base64EncodeList : List Nat → String
  | [] => ""
  | [b1] =>
    String.mk [base64Digit (b1 / 4), base64Digit (b1 % 4 * 16)] ++ "=="
  | [b1, b2] =>
    String.mk [base64Digit (b1 / 4), base64Digit (b1 % 4 * 16 + b2 / 16),
      base64Digit (b2 % 16 * 4)] ++ "="
  | b1 :: b2 :: b3 :: rest =>
    String.mk [base64Digit (b1 / 4), base64Digit (b1 % 4 * 16 + b2 / 16),
      base64Digit (b2 % 16 * 4 + b3 / 64), base64Digit (b3 % 64)] ++
    base64EncodeList rest

/-- Node `Buffer.from(s).toString("base64")`. -/
def base64OfString (s : String) : String := base64EncodeList (utf8Bytes s)

/-- Function `client.devicePath(project, location, registry, device)`: the
fully-qualified Cloud IoT device resource path. -/
def devicePath (project location registry device : String) : String :=
  "projects/" ++ project ++ "/locations/" ++ location ++ "/registries/" ++
    registry ++ "/devices/" ++ device

/-- The request sent to `client.modifyCloudToDeviceConfig`. -/
structure Request where
  name : String
  binaryData : String
deriving DecidableEq, Repr

/-- Function `generateRequest(deviceId, configData)` from index.js. -/
def generateRequest (deviceId : String)
    (configData : List (String × JsonValue)) : Request :=
  let formattedName :=
    devicePath GCLOUD_PROJECT IOT_REGION REGISTRY_ID deviceId
  let dataValue := base64OfString (jsonStringify configData)
  { name := formattedName, binaryData := dataValue }

/-- Function `iotDeviceConfigUpdate`: on a write to `Config/{deviceId}`, builds the
request from the post-write document data and sends it. -/
def iotDeviceConfigUpdate (deviceId : String)
    (changeAfterData : List (String × JsonValue)) : Request :=
  generateRequest deviceId changeAfterData

/-! Condition-indexed views of the evaluator, used to state the claims
uniformly over the eight monitored conditions. -/

/-- The eight monitored conditions (the flags of the error document). -/
inductive Condition where
  | phHigh | phLow | tempHigh | tempLow | waterLevelLow
  | batteryLow | leakDetected | internalLeakDetected
deriving DecidableEq, Repr

/-- The flag of the error document belonging to a condition. -/
def flagOf : Condition → ErrorState → Bool
  | .phHigh, e => e.PH_HIGH
  | .phLow, e => e.PH_LOW
  | .tempHigh, e => e.TEMP_HIGH
  | .tempLow, e => e.TEMP_LOW
  | .waterLevelLow, e => e.WATER_LEVEL_LOW
  | .batteryLow, e => e.BATTERY_LOW
  | .leakDetected, e => e.LEAK_DETECTED
  | .internalLeakDetected, e => e.INTERNAL_LEAK_DETECTED

/-- The sensor field of the reading that drives a condition.
`WATER_LEVEL_LOW` is driven by no check in `detectSystemErrors`. -/
def sensorOf : Condition → Reading → Option Rat
  | .phHigh, d => d.pH
  | .phLow, d => d.pH
  | .tempHigh, d => d.temperature
  | .tempLow, d => d.temperature
  | .waterLevelLow, _ => none
  | .batteryLow, d => d.battery_voltage
  | .leakDetected, d => d.leak
  | .internalLeakDetected, d => d.internal_leak

/-- The verdict the evaluator reaches for a condition on a given reading and
configuration: `none` when the check does not run (config key or sensor field
absent, or the condition has no check), `some b` when it runs and decides the
flag is `b`. -/
def verdict : Condition → Reading → Config → Option Bool
  | .phHigh, d, c =>
    match c.max_ph, d.pH with
    | some m, some v => some (decide (v > m))
    | _, _ => none
  | .phLow, d, c =>
    match c.min_ph, d.pH with
    | some m, some v => some (decide (v < m))
    | _, _ => none
  | .tempHigh, d, c =>
    match c.max_temperature, d.temperature with
    | some m, some v => some (decide (v > m))
    | _, _ => none
  | .tempLow, d, c =>
    match c.min_temperature, d.temperature with
    | some m, some v => some (decide (v < m))
    | _, _ => none
  | .waterLevelLow, _, _ => none
  | .batteryLow, d, _ =>
    match d.battery_voltage with
    | some v => some (decide (v < MIN_BATTERY_VOLTAGE))
    | none => none
  | .leakDetected, d, _ =>
    match d.leak with
    | some v => some (decide (v > MAX_LEAK_VOLTAGE))
    | none => none
  | .internalLeakDetected, d, _ =>
    match d.internal_leak with
    | some v => some (decide (v > MAX_LEAK_VOLTAGE))
    | none => none

/-- The notification title the source builds for a condition (note the
internal-leak case joins with a plain space rather than `": "`). -/
def conditionTitle (deviceId : String) : Condition → String
  | .phHigh => deviceId ++ ": " ++ PH_HIGH_MSG
  | .phLow => deviceId ++ ": " ++ PH_LOW_MSG
  | .tempHigh => deviceId ++ ": " ++ TEMP_HIGH_MSG
  | .tempLow => deviceId ++ ": " ++ TEMP_LOW_MSG
  | .waterLevelLow => deviceId ++ ": " ++ "WATER LEVEL LOW"
  | .batteryLow => deviceId ++ ": " ++ BATTERY_LOW_MSG
  | .leakDetected => deviceId ++ ": " ++ LEAK_MSG
  | .internalLeakDetected => deviceId ++ " " ++ INTERNAL_LEAK_MSG

/-- The notification the source fires for a condition. -/
def conditionNotif (deviceId : String) (c : Condition) : Notification :=
  sendFCMNotification deviceId (conditionTitle deviceId c) GENERIC_WARN_MSG

/-- The evaluator fires the notification for condition `C` exactly when the
check runs, decides `true`, and the flag was still `false` in the error
document it observes. -/
def fires (C : Condition) (d : Reading) (c : Config) (e : ErrorState) : Prop :=
  verdict C d c = some true ∧ flagOf C e = false

instance (C : Condition) (d : Reading) (c : Config) (e : ErrorState) :
    Decidable (fires C d c e) :=
  inferInstanceAs (Decidable (_ = _ ∧ _ = _))

/-! Shape lemmas for the individual checks: each check only rewrites its own
flag (to the verdict when the check runs) and fires its notification exactly
when the verdict is `true` while the observed flag is `false`. -/

theorem checkMaxPh_fst (deviceId : String) (d : Reading) (c : Config)
    (e : ErrorState) :
    (checkMaxPh deviceId d c e).1 =
      { e with PH_HIGH := (verdict .phHigh d c).getD e.PH_HIGH } := by
  cases hm : c.max_ph <;> cases hp : d.pH <;>
    simp [checkMaxPh, verdict, hm, hp] <;> split <;> simp_all

theorem checkMaxPh_snd (deviceId : String) (d : Reading) (c : Config)
    (e : ErrorState) :
    (checkMaxPh deviceId d c e).2 =
      if fires .phHigh d c e then [conditionNotif deviceId .phHigh]
      else [] := by
  cases hm : c.max_ph <;> cases hp : d.pH <;>
    simp [checkMaxPh, verdict, fires, flagOf, conditionNotif, conditionTitle,
      hm, hp] <;>
    split <;> cases he : e.PH_HIGH <;> simp_all

theorem checkMinPh_fst (deviceId : String) (d : Reading) (c : Config)
    (e : ErrorState) :
    (checkMinPh deviceId d c e).1 =
      { e with PH_LOW := (verdict .phLow d c).getD e.PH_LOW } := by
  cases hm : c.min_ph <;> cases hp : d.pH <;>
    simp [checkMinPh, verdict, hm, hp] <;> split <;> simp_all

theorem checkMinPh_snd (deviceId : String) (d : Reading) (c : Config)
    (e : ErrorState) :
    (checkMinPh deviceId d c e).2 =
      if fires .phLow d c e then [conditionNotif deviceId .phLow]
      else [] := by
  cases hm : c.min_ph <;> cases hp : d.pH <;>
    simp [checkMinPh, verdict, fires, flagOf, conditionNotif, conditionTitle,
      hm, hp] <;>
    split <;> cases he : e.PH_LOW <;> simp_all

theorem checkMaxTemperature_fst (deviceId : String) (d : Reading) (c : Config)
    (e : ErrorState) :
    (checkMaxTemperature deviceId d c e).1 =
      { e with TEMP_HIGH := (verdict .tempHigh d c).getD e.TEMP_HIGH } := by
  cases hm : c.max_temperature <;> cases hp : d.temperature <;>
    simp [checkMaxTemperature, verdict, hm, hp] <;> split <;> simp_all

theorem checkMaxTemperature_snd (deviceId : String) (d : Reading) (c : Config)
    (e : ErrorState) :
    (checkMaxTemperature deviceId d c e).2 =
      if fires .tempHigh d c e then [conditionNotif deviceId .tempHigh]
      else [] := by
  cases hm : c.max_temperature <;> cases hp : d.temperature <;>
    simp [checkMaxTemperature, verdict, fires, flagOf, conditionNotif,
      conditionTitle, hm, hp] <;>
    split <;> cases he : e.TEMP_HIGH <;> simp_all

theorem checkMinTemperature_fst (deviceId : String) (d : Reading) (c : Config)
    (e : ErrorState) :
    (checkMinTemperature deviceId d c e).1 =
      { e with TEMP_LOW := (verdict .tempLow d c).getD e.TEMP_LOW } := by
  cases hm : c.min_temperature <;> cases hp : d.temperature <;>
    simp [checkMinTemperature, verdict, hm, hp] <;> split <;> simp_all

theorem checkMinTemperature_snd (deviceId : String) (d : Reading) (c : Config)
    (e : ErrorState) :
    (checkMinTemperature deviceId d c e).2 =
      if fires .tempLow d c e then [conditionNotif deviceId .tempLow]
      else [] := by
  cases hm : c.min_temperature <;> cases hp : d.temperature <;>
    simp [checkMinTemperature, verdict, fires, flagOf, conditionNotif,
      conditionTitle, hm, hp] <;>
    split <;> cases he : e.TEMP_LOW <;> simp_all

theorem checkBatteryVoltage_fst (deviceId : String) (d : Reading) (c : Config)
    (e : ErrorState) :
    (checkBatteryVoltage deviceId d e).1 =
      { e with BATTERY_LOW := (verdict .batteryLow d c).getD e.BATTERY_LOW }
    := by
  cases hp : d.battery_voltage <;>
    simp [checkBatteryVoltage, verdict, hp] <;> split <;> simp_all

theorem checkBatteryVoltage_snd (deviceId : String) (d : Reading) (c : Config)
    (e : ErrorState) :
    (checkBatteryVoltage deviceId d e).2 =
      if fires .batteryLow d c e then [conditionNotif deviceId .batteryLow]
      else [] := by
  cases hp : d.battery_voltage <;>
    simp [checkBatteryVoltage, verdict, fires, flagOf, conditionNotif,
      conditionTitle, hp] <;>
    split <;> cases he : e.BATTERY_LOW <;> simp_all

theorem checkInternalLeak_fst (deviceId : String) (d : Reading) (c : Config)
    (e : ErrorState) :
    (checkInternalLeak deviceId d e).1 =
      { e with INTERNAL_LEAK_DETECTED :=
          (verdict .internalLeakDetected d c).getD e.INTERNAL_LEAK_DETECTED }
    := by
  cases hp : d.internal_leak <;>
    simp [checkInternalLeak, verdict, hp] <;> split <;> simp_all

theorem checkInternalLeak_snd (deviceId : String) (d : Reading) (c : Config)
    (e : ErrorState) :
    (checkInternalLeak deviceId d e).2 =
      if fires .internalLeakDetected d c e
      then [conditionNotif deviceId .internalLeakDetected]
      else [] := by
  cases hp : d.internal_leak <;>
    simp [checkInternalLeak, verdict, fires, flagOf, conditionNotif,
      conditionTitle, hp] <;>
    split <;> cases he : e.INTERNAL_LEAK_DETECTED <;> simp_all

theorem checkLeak_fst (deviceId : String) (d : Reading) (c : Config)
    (e : ErrorState) :
    (checkLeak deviceId d e).1 =
      { e with LEAK_DETECTED :=
          (verdict .leakDetected d c).getD e.LEAK_DETECTED } := by
  cases hp : d.leak <;>
    simp [checkLeak, verdict, hp] <;> split <;> simp_all

theorem checkLeak_snd (deviceId : String) (d : Reading) (c : Config)
    (e : ErrorState) :
    (checkLeak deviceId d e).2 =
      if fires .leakDetected d c e then [conditionNotif deviceId .leakDetected]
      else [] := by
  cases hp : d.leak <;>
    simp [checkLeak, verdict, fires, flagOf, conditionNotif, conditionTitle,
      hp] <;>
    split <;> cases he : e.LEAK_DETECTED <;> simp_all

/-- Master shape lemma for the returned error document: each flag is the
verdict of its own check when that check ran, and the prior flag otherwise;
`WATER_LEVEL_LOW` is never written. -/
theorem detectSystemErrors_fst (deviceId : String) (d : Reading) (c : Config)
    (e : ErrorState) :
    (detectSystemErrors deviceId d c e).1 =
      { PH_HIGH := (verdict .phHigh d c).getD e.PH_HIGH
        PH_LOW := (verdict .phLow d c).getD e.PH_LOW
        TEMP_HIGH := (verdict .tempHigh d c).getD e.TEMP_HIGH
        TEMP_LOW := (verdict .tempLow d c).getD e.TEMP_LOW
        WATER_LEVEL_LOW := e.WATER_LEVEL_LOW
        BATTERY_LOW := (verdict .batteryLow d c).getD e.BATTERY_LOW
        LEAK_DETECTED := (verdict .leakDetected d c).getD e.LEAK_DETECTED
        INTERNAL_LEAK_DETECTED :=
          (verdict .internalLeakDetected d c).getD e.INTERNAL_LEAK_DETECTED }
    := by
  simp [detectSystemErrors, checkMaxPh_fst, checkMinPh_fst,
    checkMaxTemperature_fst, checkMinTemperature_fst,
    checkBatteryVoltage_fst deviceId d c, checkInternalLeak_fst deviceId d c,
    checkLeak_fst deviceId d c]

/-- Master shape lemma for the emitted notifications: one per condition whose
check fired, in the evaluation order, and every check observes the flags of
the same prior error document `e` (each check rewrites only its own flag). -/
theorem detectSystemErrors_snd (deviceId : String) (d : Reading) (c : Config)
    (e : ErrorState) :
    (detectSystemErrors deviceId d c e).2 =
      (if fires .phHigh d c e then [conditionNotif deviceId .phHigh]
       else []) ++
      (if fires .phLow d c e then [conditionNotif deviceId .phLow]
       else []) ++
      (if fires .tempHigh d c e then [conditionNotif deviceId .tempHigh]
       else []) ++
      (if fires .tempLow d c e then [conditionNotif deviceId .tempLow]
       else []) ++
      (if fires .batteryLow d c e then [conditionNotif deviceId .batteryLow]
       else []) ++
      (if fires .internalLeakDetected d c e
       then [conditionNotif deviceId .internalLeakDetected] else []) ++
      (if fires .leakDetected d c e
       then [conditionNotif deviceId .leakDetected] else []) := by
  simp only [detectSystemErrors, checkMaxPh_fst, checkMinPh_fst,
    checkMaxTemperature_fst, checkMinTemperature_fst,
    checkBatteryVoltage_fst deviceId d c, checkInternalLeak_fst deviceId d c,
    checkLeak_fst deviceId d c, checkMaxPh_snd, checkMinPh_snd,
    checkMaxTemperature_snd, checkMinTemperature_snd,
    checkBatteryVoltage_snd deviceId d c, checkInternalLeak_snd deviceId d c,
    checkLeak_snd deviceId d c]
  simp [fires, flagOf]

/-- The concrete separator-plus-message suffix of each condition's
notification title. -/
def conditionSuffix : Condition → String
  | .phHigh => ": PH TOO HIGH..."
  | .phLow => ": PH TOO LOW..."
  | .tempHigh => ": TEMPERATURE TOO HIGH..."
  | .tempLow => ": TEMPERATURE TOO LOW..."
  | .waterLevelLow => ": WATER LEVEL LOW"
  | .batteryLow => ": BATTERY TOO LOW.."
  | .leakDetected => ": LEAK DETECTED..."
  | .internalLeakDetected => " INTERNAL LEAK DETECTED..."

theorem conditionTitle_eq (deviceId : String) (C : Condition) :
    conditionTitle deviceId C = deviceId ++ conditionSuffix C := by
  cases C <;>
    simp only [conditionTitle, conditionSuffix, String.append_assoc] <;> rfl

theorem string_append_cancel_left {s a b : String} (h : s ++ a = s ++ b) :
    a = b := by
  have h2 : (s ++ a).data = (s ++ b).data := by rw [h]
  simp [String.data_append] at h2
  cases a; cases b; simp_all

/-- Distinct conditions fire distinct notification values (their titles
differ after the shared device-identifier prefix). -/
theorem conditionNotif_inj {deviceId : String} {c₁ c₂ : Condition}
    (h : conditionNotif deviceId c₁ = conditionNotif deviceId c₂) :
    c₁ = c₂ := by
  have ht : conditionTitle deviceId c₁ = conditionTitle deviceId c₂ :=
    congrArg Notification.title h
  rw [conditionTitle_eq, conditionTitle_eq] at ht
  have hs := string_append_cancel_left ht
  cases c₁ <;> cases c₂ <;> first | rfl | exact absurd hs (by decide)

theorem count_if_self (p : Prop) [Decidable p] (x : Notification) :
    (if p then [x] else []).count x = if p then 1 else 0 := by
  split <;> simp

theorem count_if_ne (deviceId : String) (p : Prop) [Decidable p]
    {c₁ c₂ : Condition} (h : c₁ ≠ c₂) :
    (if p then [conditionNotif deviceId c₁] else []).count
      (conditionNotif deviceId c₂) = 0 := by
  have hne : conditionNotif deviceId c₁ ≠ conditionNotif deviceId c₂ :=
    fun hEq => h (conditionNotif_inj hEq)
  split <;> simp [List.count_cons, hne]

/-- Master counting lemma: the evaluator emits the notification of condition
`C` exactly once when `C`'s check fires (verdict `true` against a `false`
prior flag), and never otherwise. -/
theorem detectSystemErrors_count (deviceId : String) (d : Reading)
    (c : Config) (e : ErrorState) (C : Condition) :
    ((detectSystemErrors deviceId d c e).2).count (conditionNotif deviceId C)
      = if fires C d c e then 1 else 0 := by
  rw [detectSystemErrors_snd]
  simp only [List.count_append]
  cases C
  case waterLevelLow => simp [count_if_ne, fires, verdict]
  all_goals simp [count_if_self, count_if_ne]

/-- Flag-level form of the master shape lemma. -/
theorem detectSystemErrors_flag (deviceId : String) (d : Reading)
    (c : Config) (e : ErrorState) (C : Condition) :
    flagOf C (detectSystemErrors deviceId d c e).1 =
      (verdict C d c).getD (flagOf C e) := by
  rw [detectSystemErrors_fst]; cases C <;> rfl

/-- A check that does not run (sensor field absent) reaches no verdict. -/
theorem verdict_none_of_sensor_none {C : Condition} {d : Reading}
    (c : Config) (h : sensorOf C d = none) : verdict C d c = none := by
  cases C <;> simp only [sensorOf] at h <;> simp only [verdict, h] <;>
    split <;> simp_all

-- Sanity checks on concrete inputs (scenarios of spec §8).
example :
    (detectSystemErrors "pi" { temperature := some 30 } DEFAULT_CONFIG_DOC
      DEFAULT_ERROR_DOC).1.TEMP_HIGH = true := by decide
example :
    (detectSystemErrors "pi" { temperature := some 30 } DEFAULT_CONFIG_DOC
      DEFAULT_ERROR_DOC).2 =
    [sendFCMNotification "pi" ("pi" ++ ": " ++ TEMP_HIGH_MSG)
      GENERIC_WARN_MSG] := by decide
example :
    (detectSystemErrors "pi" { battery_voltage := some (mkRat 7 2) }
      DEFAULT_CONFIG_DOC DEFAULT_ERROR_DOC).1.BATTERY_LOW = true := by decide
example :
    (detectSystemErrors "pi" { temperature := some 25 } DEFAULT_CONFIG_DOC
      { DEFAULT_ERROR_DOC with TEMP_HIGH := true }).1.TEMP_HIGH = false := by
  decide

/-! The claims. -/

/-- C1: for every evaluation, the notification for condition `C` is emitted
(exactly once) iff `C`'s flag was false in the prior error-state and is true
in the returned one; in particular two consecutive out-of-range readings for
the same condition yield exactly one notification in total, and a true→false
transition emits nothing. -/
theorem claim_C1 (deviceId : String) (d : Reading) (c : Config)
    (e : ErrorState) (C : Condition) :
    (((detectSystemErrors deviceId d c e).2).count (conditionNotif deviceId C)
      = if flagOf C e = false ∧
           flagOf C (detectSystemErrors deviceId d c e).1 = true
        then 1 else 0) ∧
    (∀ d₂ : Reading,
      flagOf C e = false →
      flagOf C (detectSystemErrors deviceId d c e).1 = true →
      flagOf C (detectSystemErrors deviceId d₂ c
        (detectSystemErrors deviceId d c e).1).1 = true →
      ((detectSystemErrors deviceId d c e).2).count
          (conditionNotif deviceId C) +
        ((detectSystemErrors deviceId d₂ c
            (detectSystemErrors deviceId d c e).1).2).count
          (conditionNotif deviceId C) = 1) := by
  have key : ∀ e' : ErrorState,
      ((detectSystemErrors deviceId d c e').2).count
        (conditionNotif deviceId C)
      = if flagOf C e' = false ∧
           flagOf C (detectSystemErrors deviceId d c e').1 = true
        then 1 else 0 := by
    intro e'
    rw [detectSystemErrors_count, detectSystemErrors_flag]
    rcases hv : verdict C d c with _ | b <;>
      cases hf : flagOf C e' <;> simp [fires, hv, hf]
  have key₂ : ∀ (d' : Reading) (e' : ErrorState),
      ((detectSystemErrors deviceId d' c e').2).count
        (conditionNotif deviceId C)
      = if flagOf C e' = false ∧
           flagOf C (detectSystemErrors deviceId d' c e').1 = true
        then 1 else 0 := by
    intro d' e'
    rw [detectSystemErrors_count, detectSystemErrors_flag]
    rcases hv : verdict C d' c with _ | b <;>
      cases hf : flagOf C e' <;> simp [fires, hv, hf]
  refine ⟨key e, ?_⟩
  intro d₂ h0 h1 h2
  rw [key e, key₂ d₂ (detectSystemErrors deviceId d c e).1]
  simp [h0, h1, h2]

theorem claim_C1_witness :
    ((detectSystemErrors "pi" { temperature := some 30 } DEFAULT_CONFIG_DOC
        DEFAULT_ERROR_DOC).2).count (conditionNotif "pi" .tempHigh) +
      ((detectSystemErrors "pi" { temperature := some 31 } DEFAULT_CONFIG_DOC
          (detectSystemErrors "pi" { temperature := some 30 }
            DEFAULT_CONFIG_DOC DEFAULT_ERROR_DOC).1).2).count
        (conditionNotif "pi" .tempHigh) = 1 :=
  (claim_C1 "pi" { temperature := some 30 } DEFAULT_CONFIG_DOC
      DEFAULT_ERROR_DOC .tempHigh).2
    { temperature := some 31 } (by decide) (by decide) (by decide)

/-- C3: a reading that omits a sensor field leaves that sensor's error flags
exactly as they were in the prior error-state. -/
theorem claim_C3 (deviceId : String) (d : Reading) (c : Config)
    (e : ErrorState) (C : Condition) (h : sensorOf C d = none) :
    flagOf C (detectSystemErrors deviceId d c e).1 = flagOf C e := by
  rw [detectSystemErrors_flag, verdict_none_of_sensor_none c h]
  rfl

theorem claim_C3_witness :
    sensorOf .tempHigh { pH := some 11 } = none ∧
    flagOf .tempHigh (detectSystemErrors "pi" { pH := some 11 }
        DEFAULT_CONFIG_DOC
        { DEFAULT_ERROR_DOC with TEMP_HIGH := true }).1 =
      flagOf .tempHigh { DEFAULT_ERROR_DOC with TEMP_HIGH := true } :=
  ⟨by decide,
   claim_C3 "pi" { pH := some 11 } DEFAULT_CONFIG_DOC
     { DEFAULT_ERROR_DOC with TEMP_HIGH := true } .tempHigh (by decide)⟩

/-- C10: no evaluation path writes `WATER_LEVEL_LOW`: it always equals its
prior value, so from the all-false default it stays false. -/
theorem claim_C10 (deviceId : String) (d : Reading) (c : Config)
    (e : ErrorState) :
    (detectSystemErrors deviceId d c e).1.WATER_LEVEL_LOW =
      e.WATER_LEVEL_LOW ∧
    (e.WATER_LEVEL_LOW = false →
      (detectSystemErrors deviceId d c e).1.WATER_LEVEL_LOW = false) := by
  have h : (detectSystemErrors deviceId d c e).1.WATER_LEVEL_LOW =
      e.WATER_LEVEL_LOW := by
    rw [detectSystemErrors_fst]
  exact ⟨h, fun h0 => h.trans h0⟩

theorem claim_C10_witness :
    DEFAULT_ERROR_DOC.WATER_LEVEL_LOW = false ∧
    (detectSystemErrors "pi"
        { temperature := some 30, pH := some 11, battery_voltage := some 3,
          leak := some 1, internal_leak := some 1, water_level := some 0 }
        DEFAULT_CONFIG_DOC DEFAULT_ERROR_DOC).1.WATER_LEVEL_LOW = false :=
  ⟨by decide,
   (claim_C10 "pi"
       { temperature := some 30, pH := some 11, battery_voltage := some 3,
         leak := some 1, internal_leak := some 1, water_level := some 0 }
       DEFAULT_CONFIG_DOC DEFAULT_ERROR_DOC).2 (by decide)⟩

/-- C4: for a present sensor value and a threshold dimension present in the
configuration, the comparison is strict: value above max sets the high flag,
value below min sets the low flag, and otherwise (equality included) the
flag clears; the high-temperature notification fires iff the prior
`TEMP_HIGH` flag was false. -/
theorem claim_C4 (deviceId : String) (d : Reading) (c : Config)
    (e : ErrorState) :
    (∀ M t, c.max_temperature = some M → d.temperature = some t →
      (detectSystemErrors deviceId d c e).1.TEMP_HIGH = decide (t > M)) ∧
    (∀ m t, c.min_temperature = some m → d.temperature = some t →
      (detectSystemErrors deviceId d c e).1.TEMP_LOW = decide (t < m)) ∧
    (∀ M v, c.max_ph = some M → d.pH = some v →
      (detectSystemErrors deviceId d c e).1.PH_HIGH = decide (v > M)) ∧
    (∀ m v, c.min_ph = some m → d.pH = some v →
      (detectSystemErrors deviceId d c e).1.PH_LOW = decide (v < m)) ∧
    (∀ M t, c.max_temperature = some M → d.temperature = some t → t > M →
      ((detectSystemErrors deviceId d c e).2).count
          (conditionNotif deviceId .tempHigh) =
        if e.TEMP_HIGH = false then 1 else 0) := by
  refine ⟨?_, ?_, ?_, ?_, ?_⟩
  · intro M t hM ht
    have := detectSystemErrors_flag deviceId d c e .tempHigh
    simp only [flagOf] at this
    rw [this]; simp [verdict, hM, ht]
  · intro m t hm ht
    have := detectSystemErrors_flag deviceId d c e .tempLow
    simp only [flagOf] at this
    rw [this]; simp [verdict, hm, ht]
  · intro M v hM hv
    have := detectSystemErrors_flag deviceId d c e .phHigh
    simp only [flagOf] at this
    rw [this]; simp [verdict, hM, hv]
  · intro m v hm hv
    have := detectSystemErrors_flag deviceId d c e .phLow
    simp only [flagOf] at this
    rw [this]; simp [verdict, hm, hv]
  · intro M t hM ht hgt
    rw [detectSystemErrors_count]
    have hv : verdict .tempHigh d c = some true := by
      simp [verdict, hM, ht, hgt]
    cases hf : e.TEMP_HIGH <;> simp [fires, hv, flagOf, hf]

theorem claim_C4_witness :
    DEFAULT_CONFIG_DOC.max_temperature = some 25 ∧
    (detectSystemErrors "pi" { temperature := some 25 } DEFAULT_CONFIG_DOC
        DEFAULT_ERROR_DOC).1.TEMP_HIGH = decide ((25 : Rat) > 25) :=
  ⟨by decide,
   (claim_C4 "pi" { temperature := some 25 } DEFAULT_CONFIG_DOC
       DEFAULT_ERROR_DOC).1 25 25 (by decide) (by decide)⟩

/-- C5: the fixed-threshold conditions compare against the built-in
constants with the same presence-gated strict rule, for every configuration
record (the right-hand sides do not mention the configuration): battery
voltage below `MIN_BATTERY_VOLTAGE` sets `BATTERY_LOW`, leak voltage above
`MAX_LEAK_VOLTAGE` sets `LEAK_DETECTED`, internal-leak voltage above
`MAX_LEAK_VOLTAGE` sets `INTERNAL_LEAK_DETECTED`; in-range present values
clear the flags. -/
theorem claim_C5 (deviceId : String) (d : Reading) (c : Config)
    (e : ErrorState) :
    (∀ v, d.battery_voltage = some v →
      (detectSystemErrors deviceId d c e).1.BATTERY_LOW =
        decide (v < MIN_BATTERY_VOLTAGE)) ∧
    (∀ v, d.leak = some v →
      (detectSystemErrors deviceId d c e).1.LEAK_DETECTED =
        decide (v > MAX_LEAK_VOLTAGE)) ∧
    (∀ v, d.internal_leak = some v →
      (detectSystemErrors deviceId d c e).1.INTERNAL_LEAK_DETECTED =
        decide (v > MAX_LEAK_VOLTAGE)) := by
  refine ⟨?_, ?_, ?_⟩
  · intro v hv
    have := detectSystemErrors_flag deviceId d c e .batteryLow
    simp only [flagOf] at this
    rw [this]; simp [verdict, hv]
  · intro v hv
    have := detectSystemErrors_flag deviceId d c e .leakDetected
    simp only [flagOf] at this
    rw [this]; simp [verdict, hv]
  · intro v hv
    have := detectSystemErrors_flag deviceId d c e .internalLeakDetected
    simp only [flagOf] at this
    rw [this]; simp [verdict, hv]

theorem claim_C5_witness :
    (detectSystemErrors "pi" { battery_voltage := some 3, leak := some 1 }
        { } DEFAULT_ERROR_DOC).1.BATTERY_LOW =
      decide ((3 : Rat) < MIN_BATTERY_VOLTAGE) ∧
    (detectSystemErrors "pi" { battery_voltage := some 3, leak := some 1 }
        { } DEFAULT_ERROR_DOC).1.LEAK_DETECTED =
      decide ((1 : Rat) > MAX_LEAK_VOLTAGE) :=
  ⟨(claim_C5 "pi" { battery_voltage := some 3, leak := some 1 } { }
      DEFAULT_ERROR_DOC).1 3 (by decide),
   (claim_C5 "pi" { battery_voltage := some 3, leak := some 1 } { }
      DEFAULT_ERROR_DOC).2.1 1 (by decide)⟩

/-- C6: a reading with `pH: 11` (against `max_ph = 10`) and
`battery_voltage: 3.0`, evaluated against the all-false prior error-state,
emits exactly the pH-high and battery-low notifications — two in total —
and the single returned error-state has both `PH_HIGH` and `BATTERY_LOW`
true. -/
theorem claim_C6 :
    ((detectSystemErrors "pi" { pH := some 11, battery_voltage := some 3 }
        DEFAULT_CONFIG_DOC DEFAULT_ERROR_DOC).2).length = 2 ∧
    (detectSystemErrors "pi" { pH := some 11, battery_voltage := some 3 }
        DEFAULT_CONFIG_DOC DEFAULT_ERROR_DOC).2 =
      [conditionNotif "pi" .phHigh, conditionNotif "pi" .batteryLow] ∧
    (detectSystemErrors "pi" { pH := some 11, battery_voltage := some 3 }
        DEFAULT_CONFIG_DOC DEFAULT_ERROR_DOC).1.PH_HIGH = true ∧
    (detectSystemErrors "pi" { pH := some 11, battery_voltage := some 3 }
        DEFAULT_CONFIG_DOC DEFAULT_ERROR_DOC).1.BATTERY_LOW = true := by
  refine ⟨?_, ?_, ?_, ?_⟩ <;> decide

/-- C7: every condition check observes the same prior error-state snapshot —
`C`'s returned flag and `C`'s notification count depend only on the reading,
the configuration, and `C`'s own prior flag, so two prior error-states that
agree on `C`'s flag are indistinguishable for `C`. -/
theorem claim_C7 (deviceId : String) (d : Reading) (c : Config)
    (e₁ e₂ : ErrorState) (C : Condition) (h : flagOf C e₁ = flagOf C e₂) :
    flagOf C (detectSystemErrors deviceId d c e₁).1 =
      flagOf C (detectSystemErrors deviceId d c e₂).1 ∧
    ((detectSystemErrors deviceId d c e₁).2).count
        (conditionNotif deviceId C) =
      ((detectSystemErrors deviceId d c e₂).2).count
        (conditionNotif deviceId C) := by
  constructor
  · rw [detectSystemErrors_flag, detectSystemErrors_flag, h]
  · rw [detectSystemErrors_count, detectSystemErrors_count]
    simp [fires, h]

theorem claim_C7_witness :
    flagOf .tempHigh DEFAULT_ERROR_DOC =
      flagOf .tempHigh { DEFAULT_ERROR_DOC with TEMP_LOW := true } ∧
    ((detectSystemErrors "pi" { temperature := some 30 } DEFAULT_CONFIG_DOC
        DEFAULT_ERROR_DOC).2).count (conditionNotif "pi" .tempHigh) =
      ((detectSystemErrors "pi" { temperature := some 30 } DEFAULT_CONFIG_DOC
          { DEFAULT_ERROR_DOC with TEMP_LOW := true }).2).count
        (conditionNotif "pi" .tempHigh) :=
  ⟨by decide,
   (claim_C7 "pi" { temperature := some 30 } DEFAULT_CONFIG_DOC
       DEFAULT_ERROR_DOC { DEFAULT_ERROR_DOC with TEMP_LOW := true }
       .tempHigh (by decide)).2⟩

/-- C2 counterexample: with the config document present and the error-state
document missing, a battery reading of 3.0 produces NO notification and the
persisted error-state is the untouched default (`BATTERY_LOW = false`),
although evaluating the reading against the freshly created defaults would
emit a notification and set `BATTERY_LOW` — the source returns early instead
of proceeding to evaluate. -/
theorem claim_C2_counterexample :
    (iotStoreDeviceUpdates "pi" { battery_voltage := some 3 }
        { config := some DEFAULT_CONFIG_DOC }).2 = [] ∧
    (iotStoreDeviceUpdates "pi" { battery_voltage := some 3 }
        { config := some DEFAULT_CONFIG_DOC }).1.error =
      some DEFAULT_ERROR_DOC ∧
    (detectSystemErrors "pi" { battery_voltage := some 3 }
        DEFAULT_CONFIG_DOC DEFAULT_ERROR_DOC).2 ≠ [] ∧
    (detectSystemErrors "pi" { battery_voltage := some 3 }
        DEFAULT_CONFIG_DOC DEFAULT_ERROR_DOC).1.BATTERY_LOW = true := by
  refine ⟨?_, ?_, ?_, ?_⟩ <;> decide

/-- C2 (amended): when the configuration document is missing it is created
as the fixed default (max_ph 10, min_ph 5, max_temperature 25,
min_temperature 15) and evaluation proceeds against it; but when the
error-state document is missing, the all-false default error-state is
created and persisted and the engine returns WITHOUT evaluating the
reading — no notifications are emitted and the stored error-state is the
default, not the result of an evaluation. -/
theorem claim_C2 (deviceId : String) (d : Reading) (s : Store) :
    (s.error = none →
      iotStoreDeviceUpdates deviceId d s =
        ({ rtdb := some d, status := some d, history := s.history ++ [d],
           config := some (s.config.getD DEFAULT_CONFIG_DOC),
           error := some DEFAULT_ERROR_DOC }, [])) ∧
    (∀ err, s.config = none → s.error = some err →
      iotStoreDeviceUpdates deviceId d s =
        ({ rtdb := some d, status := some d, history := s.history ++ [d],
           config := some DEFAULT_CONFIG_DOC,
           error :=
             some (detectSystemErrors deviceId d DEFAULT_CONFIG_DOC err).1 },
         (detectSystemErrors deviceId d DEFAULT_CONFIG_DOC err).2)) ∧
    DEFAULT_CONFIG_DOC.max_ph = some 10 ∧
    DEFAULT_CONFIG_DOC.min_ph = some 5 ∧
    DEFAULT_CONFIG_DOC.max_temperature = some 25 ∧
    DEFAULT_CONFIG_DOC.min_temperature = some 15 ∧
    DEFAULT_ERROR_DOC =
      { PH_HIGH := false, PH_LOW := false, TEMP_HIGH := false,
        TEMP_LOW := false, WATER_LEVEL_LOW := false, BATTERY_LOW := false,
        LEAK_DETECTED := false, INTERNAL_LEAK_DETECTED := false } := by
  refine ⟨?_, ?_, by decide, by decide, by decide, by decide, by decide⟩
  · intro h
    cases hc : s.config <;> simp [iotStoreDeviceUpdates, hc, h]
  · intro err hc he
    simp [iotStoreDeviceUpdates, hc, he]

theorem claim_C2_witness :
    iotStoreDeviceUpdates "pi" { temperature := some 30 } { } =
      ({ rtdb := some { temperature := some 30 },
         status := some { temperature := some 30 },
         history := [{ temperature := some 30 }],
         config := some DEFAULT_CONFIG_DOC,
         error := some DEFAULT_ERROR_DOC }, []) :=
  (claim_C2 "pi" { temperature := some 30 } { }).1 rfl

/-- Membership in a conditional singleton list forces equality. -/
theorem mem_ite_singleton {α : Type} {a x : α} {p : Prop} [Decidable p]
    (h : a ∈ (if p then [x] else [])) : a = x := by
  split at h <;> simp_all

/-- C8 counterexample: the internal-leak notification's title joins the
device identifier and the message with a plain space, not with `": "`, so
the claimed title format fails for the internal-leak condition. -/
theorem claim_C8_counterexample :
    ((detectSystemErrors "pi" { internal_leak := some 1 } DEFAULT_CONFIG_DOC
        DEFAULT_ERROR_DOC).2).map Notification.title =
      ["pi INTERNAL LEAK DETECTED..."] ∧
    ("pi INTERNAL LEAK DETECTED..." : String) ≠
      "pi" ++ ": " ++ INTERNAL_LEAK_MSG := by
  refine ⟨?_, ?_⟩ <;> decide

/-- C8 (amended): every emitted notification has topic the device
identifier, body the fixed generic warning text, priority `"high"` and
time-to-live 86400 seconds; its title is the device identifier followed by
`": "` and the condition message for every condition EXCEPT internal leak,
whose title joins the device identifier and message with a plain space. -/
theorem claim_C8 (deviceId : String) (d : Reading) (c : Config)
    (e : ErrorState) (n : Notification)
    (hn : n ∈ (detectSystemErrors deviceId d c e).2) :
    n.topic = deviceId ∧ n.body = GENERIC_WARN_MSG ∧
    n.priority = "high" ∧ n.timeToLive = 86400 ∧
    (n.title = deviceId ++ ": " ++ PH_HIGH_MSG ∨
     n.title = deviceId ++ ": " ++ PH_LOW_MSG ∨
     n.title = deviceId ++ ": " ++ TEMP_HIGH_MSG ∨
     n.title = deviceId ++ ": " ++ TEMP_LOW_MSG ∨
     n.title = deviceId ++ ": " ++ BATTERY_LOW_MSG ∨
     n.title = deviceId ++ ": " ++ LEAK_MSG ∨
     n.title = deviceId ++ " " ++ INTERNAL_LEAK_MSG) := by
  rw [detectSystemErrors_snd] at hn
  simp only [List.mem_append] at hn
  rcases hn with ((((((h | h) | h) | h) | h) | h) | h) <;>
    rw [mem_ite_singleton h] <;>
    simp [conditionNotif, conditionTitle, sendFCMNotification]

theorem claim_C8_witness :
    (conditionNotif "pi" .batteryLow).topic = "pi" ∧
    (conditionNotif "pi" .batteryLow).body = GENERIC_WARN_MSG ∧
    (conditionNotif "pi" .batteryLow).priority = "high" ∧
    (conditionNotif "pi" .batteryLow).timeToLive = 86400 ∧
    ((conditionNotif "pi" .batteryLow).title = "pi" ++ ": " ++ PH_HIGH_MSG ∨
     (conditionNotif "pi" .batteryLow).title = "pi" ++ ": " ++ PH_LOW_MSG ∨
     (conditionNotif "pi" .batteryLow).title = "pi" ++ ": " ++ TEMP_HIGH_MSG ∨
     (conditionNotif "pi" .batteryLow).title = "pi" ++ ": " ++ TEMP_LOW_MSG ∨
     (conditionNotif "pi" .batteryLow).title =
       "pi" ++ ": " ++ BATTERY_LOW_MSG ∨
     (conditionNotif "pi" .batteryLow).title = "pi" ++ ": " ++ LEAK_MSG ∨
     (conditionNotif "pi" .batteryLow).title =
       "pi" ++ " " ++ INTERNAL_LEAK_MSG) :=
  claim_C8 "pi" { battery_voltage := some 3 } { } DEFAULT_ERROR_DOC
    (conditionNotif "pi" .batteryLow) (by decide)

/-- C9: the config-push request is addressed to the fully-qualified device
path `projects/piponics/locations/us-central1/registries/RaspberryPis/
devices/<deviceId>` and carries the base64 encoding of the UTF-8 bytes of
the JSON serialization of the full configuration document (checked on a
concrete vector as well). -/
theorem claim_C9 (deviceId : String)
    (configData : List (String × JsonValue)) :
    (iotDeviceConfigUpdate deviceId configData).name =
      devicePath GCLOUD_PROJECT IOT_REGION REGISTRY_ID deviceId ∧
    (iotDeviceConfigUpdate deviceId configData).name =
      "projects/piponics/locations/us-central1/registries/RaspberryPis/devices/"
        ++ deviceId ∧
    (iotDeviceConfigUpdate deviceId configData).binaryData =
      base64OfString (jsonStringify configData) ∧
    (iotDeviceConfigUpdate "pi1" [("a", JsonValue.num 1)]).binaryData =
      "eyJhIjoxfQ==" := by
  exact ⟨rfl, rfl, rfl, by decide⟩

end Piponic
